import Mathlib

/-!
Shallow embedding of the PDF document viewer component
(`PdfViewerTrueFullWidth`, the variant the specification's claims cite)
and of the pure helpers it uses.  JavaScript strings are modelled through
their character lists; JavaScript numbers that only ever hold integers are
modelled as `Int`/`Nat`, and the zoom factor as `ℚ` (the one property at
stake, the `max` lower bound, is insensitive to the float/rational gap).
The object-URL lifecycle (`URL.createObjectURL` / `URL.revokeObjectURL`)
is modelled by a resource-tracking event trace, handles being numbered by
the tracker.
-/

namespace PdfViewer

/-- Leading-match test over character lists: does the haystack start with the
needle?  First argument is the needle. -/
def startsWithChars : List Char → List Char → Bool
  | [], _ => true
  | _ :: _, [] => false
  | a :: as, b :: bs => a == b && startsWithChars as bs

/-- Substring test underlying JS `hay.includes(needle)`: the needle occurs
(contiguously) somewhere in the haystack. -/
def containsChars (needle : List Char) : List Char → Bool
  | [] => startsWithChars needle []
  | c :: t => startsWithChars needle (c :: t) || containsChars needle t

/-- JS `hay.includes(needle)`. -/
def jsIncludes (hay needle : String) : Bool :=
  containsChars needle.data hay.data

/-- JS `s.toLowerCase()` (ASCII case fold; the catalog data the component
handles is ASCII). -/
def jsToLower (s : String) : String :=
  ⟨s.data.map Char.toLower⟩

/-- The document metadata record (`DocumentType` in the source). -/
structure DocumentType where
  id : String
  fileName : String
  fileSize : Nat
  pages : Nat
  uploadedAt : String
  author : String
  category : String
  description : String
  downloadCount : Nat
  filename : String
deriving Repr, DecidableEq

/-- The filter predicate of `filteredDocuments` (source lines 451-456):
`matchesSearch && matchesCategory`. -/
def docMatches (searchQuery selectedCategory : String) (doc : DocumentType) : Bool :=
  (jsIncludes (jsToLower doc.fileName) (jsToLower searchQuery)
      || jsIncludes (jsToLower doc.author) (jsToLower searchQuery))
    && (selectedCategory == "all" || doc.category == selectedCategory)

/-- `filteredDocuments = documents.filter(...)` (source lines 451-456). -/
def filteredDocuments (documents : List DocumentType)
    (searchQuery selectedCategory : String) : List DocumentType :=
  documents.filter (docMatches searchQuery selectedCategory)

/-- The spec's wording of the filter predicate: (`searchText` empty OR
case-insensitive substring of display name OR author) AND (`categoryFilter`
"all" OR equal to the record's category). -/
def specMatches (searchText categoryFilter : String) (doc : DocumentType) : Bool :=
  (searchText == ""
      || jsIncludes (jsToLower doc.fileName) (jsToLower searchText)
      || jsIncludes (jsToLower doc.author) (jsToLower searchText))
    && (categoryFilter == "all" || doc.category == categoryFilter)

/-- Unit labels of `formatFileSize` (source line 269). -/
def sizes : List String := ["Bytes", "KB", "MB", "GB"]

/-- Round-half-up of `a / b` (`b > 0`), the rounding JS `toFixed(2)` performs
on the exact quotients that arise here. -/
def roundDiv (a b : Nat) : Nat :=
  (2 * a + b) / (2 * b)

/-- Decimal rendering of `c / 100` after JS `parseFloat((...).toFixed(2))`:
trailing zeros (and a bare decimal point) are dropped. -/
def renderCenti (c : Nat) : String :=
  if c % 100 == 0 then toString (c / 100)
  else if c % 10 == 0 then toString (c / 100) ++ "." ++ toString (c / 10 % 10)
  else toString (c / 100) ++ "." ++ toString (c % 100 / 10) ++ toString (c % 10)

/-- Fuel-driven base-1024 logarithm (the fuel only forces structural
recursion; `unitIndex` passes enough). -/
def unitIndexAux : Nat → Nat → Nat
  | 0, _ => 0
  | fuel + 1, n => if n < 1024 then 0 else unitIndexAux fuel (n / 1024) + 1

/-- `Math.floor(Math.log(bytes) / Math.log(1024))` for a positive integer:
the floor of the base-1024 real logarithm, that is, the unique `i` with
`1024 ^ i ≤ bytes < 1024 ^ (i + 1)` (equals `Nat.log 1024 bytes`). -/
def unitIndex (n : Nat) : Nat :=
  unitIndexAux n n

/-- `formatFileSize` (source lines 266-272).  The source does not clamp the
unit index, and JS `sizes[i]` for `i ≥ 4` is `undefined`, which string
concatenation renders as `"undefined"` — hence the `getD` default. -/
def formatFileSize (bytes : Nat) : String :=
  if bytes == 0 then "0 Bytes"
  else
    let i := unitIndex bytes
    renderCenti (roundDiv (bytes * 100) (1024 ^ i)) ++ " " ++ sizes.getD i "undefined"

/-- Modelled from the spec: the byte formatter claim C6 describes, with the
unit index clamped to the available labels.  Kept only to compare with the
source's `formatFileSize`. -/
def formatFileSizeClamped (bytes : Nat) : String :=
  if bytes == 0 then "0 Bytes"
  else
    let i := min (unitIndex bytes) 3
    renderCenti (roundDiv (bytes * 100) (1024 ^ i)) ++ " " ++ sizes.getD i "undefined"

/-- The viewer's state bag (source lines 56-70), restricted to the fields the
state machine reads or writes.  `pdfUrl` holds the live object-URL handle,
numbered by the resource tracker. -/
structure ViewerState where
  pdfUrl : Option Nat := none
  selectedDocument : Option DocumentType := none
  numPages : Option Int := none
  pageNumber : Int := 1
  scale : ℚ := 1
  loading : Bool := false
  error : Option String := none
deriving Repr, DecidableEq

/-- The initial state (source lines 56-70). -/
def initialState : ViewerState := {}

/-- Resource-tracking events: `release h` is `URL.revokeObjectURL` on handle
`h`, `fetch` is the `fetch(...)` call being issued, `create h` is
`URL.createObjectURL` yielding handle `h`. -/
inductive Ev where
  | release (h : Nat)
  | fetch
  | create (h : Nat)
deriving Repr, DecidableEq

/-- Result of the binary `fetch`: a transport failure, or an HTTP response
with its status and declared `Content-Type` header (if any). -/
inductive FetchResult where
  | netError (msg : String)
  | http (status : Nat) (contentType : Option String)
deriving Repr, DecidableEq

/-- JS `Response.ok`: status in the range 200-299. -/
def respOk (status : Nat) : Bool :=
  200 ≤ status && status ≤ 299

/-- The content-type acceptance test of `fetchPdf` (source lines 153-156):
`contentType?.includes('application/pdf')` — a substring test, with a missing
header rejected. -/
def contentTypeOk : Option String → Bool
  | none => false
  | some ct => jsIncludes ct "application/pdf"

/-- Does the fetch result take `fetchPdf`'s success path (HTTP ok and
acceptable content type)? -/
def fetchSuccess : FetchResult → Bool
  | .netError _ => false
  | .http status ct => respOk status && contentTypeOk ct

/-- The synchronous first phase of `fetchPdf` (source lines 133-146): set
`loading`, clear `error`, release and clear a live handle, then issue the
fetch. -/
def fetchStart (s : ViewerState) : ViewerState × List Ev :=
  let s1 := { s with loading := true, error := none }
  match s1.pdfUrl with
  | some h => ({ s1 with pdfUrl := none }, [Ev.release h, Ev.fetch])
  | none => (s1, [Ev.fetch])

/-- The completion phase of `fetchPdf` (source lines 148-184), applied when
the response (or transport failure) arrives: validate status and content
type, then either install a fresh handle (`newHandle`) or record the error.
Note it does not consult `selectedDocument` before applying the result. -/
def fetchComplete (s : ViewerState) (doc : DocumentType) (r : FetchResult)
    (newHandle : Nat) : ViewerState × List Ev :=
  match r with
  | .netError msg =>
      ({ s with
          error := some ("Failed to load PDF: " ++ msg),
          loading := false }, [])
  | .http status ct =>
      if !respOk status then
        ({ s with
            error := some ("Failed to load PDF: HTTP error! status: " ++ toString status),
            loading := false }, [])
      else if !contentTypeOk ct then
        ({ s with
            error := some "Failed to load PDF: Server response is not a valid PDF file",
            loading := false }, [])
      else
        ({ s with
            pdfUrl := some newHandle,
            selectedDocument := some doc,
            pageNumber := 1,
            loading := false }, [Ev.create newHandle])

/-- One full, uninterrupted `fetchPdf` call: start phase, then the completion
applied to the resulting state. -/
def fetchPdf (s : ViewerState) (doc : DocumentType) (r : FetchResult)
    (newHandle : Nat) : ViewerState × List Ev :=
  let p1 := fetchStart s
  let p2 := fetchComplete p1.1 doc r newHandle
  (p2.1, p1.2 ++ p2.2)

/-- The unmount cleanup of the object URL (source lines 194-201): revoke the
live handle, if any. -/
def teardown (s : ViewerState) : ViewerState × List Ev :=
  match s.pdfUrl with
  | some h => ({ s with pdfUrl := none }, [Ev.release h])
  | none => (s, [])

/-- The document the error-state retry button re-fetches
(source line 341: `selectedDocument && fetchPdf(selectedDocument)`). -/
def retryTarget (s : ViewerState) : Option DocumentType :=
  s.selectedDocument

/-- An operation in a sequential run of the viewer: a selection (a `fetchPdf`
call whose response is processed before the next operation), or a teardown. -/
inductive Op where
  | select (doc : DocumentType) (r : FetchResult) (newHandle : Nat)
  | teardown
deriving Repr, DecidableEq

/-- Execute one operation. -/
def runOp (s : ViewerState) : Op → ViewerState × List Ev
  | .select doc r h => fetchPdf s doc r h
  | .teardown => teardown s

/-- Execute a sequence of operations, accumulating the event trace. -/
def runOps (s : ViewerState) : List Op → ViewerState × List Ev
  | [] => (s, [])
  | op :: ops =>
      let p1 := runOp s op
      let p2 := runOps p1.1 ops
      (p2.1, p1.2 ++ p2.2)

/-- Number of `create` events in a trace. -/
def countCreates : List Ev → Nat
  | [] => 0
  | Ev.create _ :: t => countCreates t + 1
  | _ :: t => countCreates t

/-- Number of `release` events in a trace. -/
def countReleases : List Ev → Nat
  | [] => 0
  | Ev.release _ :: t => countReleases t + 1
  | _ :: t => countReleases t

/-- Well-balanced trace, starting with `live` handles alive: a release only
ever hits the one live handle, and a creation only happens when nothing is
live — so at most one handle is live at every step. -/
def balancedFrom (live : Int) : List Ev → Prop
  | [] => True
  | Ev.release _ :: t => live = 1 ∧ balancedFrom 0 t
  | Ev.fetch :: t => balancedFrom live t
  | Ev.create _ :: t => live = 0 ∧ balancedFrom 1 t

/-- Number of live handles recorded in a state. -/
def liveOf (s : ViewerState) : Int :=
  if s.pdfUrl.isSome then 1 else 0

/-- Live-handle count after a trace. -/
def endLive (live : Int) : List Ev → Int
  | [] => live
  | Ev.release _ :: t => endLive (live - 1) t
  | Ev.fetch :: t => endLive live t
  | Ev.create _ :: t => endLive (live + 1) t

/-- JS `numPages || 1`: `null` and `0` are falsy. -/
def jsOr1 : Option Int → Int
  | none => 1
  | some n => if n == 0 then 1 else n

/-- `goToPreviousPage` (source lines 216-220); the returned list is the
arguments fed to `onPageChange`. -/
def goToPreviousPage (s : ViewerState) : ViewerState × List Int :=
  let newPage := max (s.pageNumber - 1) 1
  ({ s with pageNumber := newPage }, [newPage])

/-- `goToNextPage` (source lines 222-226). -/
def goToNextPage (s : ViewerState) : ViewerState × List Int :=
  let newPage := min (s.pageNumber + 1) (jsOr1 s.numPages)
  ({ s with pageNumber := newPage }, [newPage])

/-- `goToFirstPage` (source lines 228-231). -/
def goToFirstPage (s : ViewerState) : ViewerState × List Int :=
  ({ s with pageNumber := 1 }, [1])

/-- `goToLastPage` (source lines 233-236). -/
def goToLastPage (s : ViewerState) : ViewerState × List Int :=
  ({ s with pageNumber := jsOr1 s.numPages }, [jsOr1 s.numPages])

/-- A page-navigation operation. -/
inductive NavOp where
  | first | last | next | previous
deriving Repr, DecidableEq

/-- Dispatch a navigation operation. -/
def runNav (s : ViewerState) : NavOp → ViewerState × List Int
  | .first => goToFirstPage s
  | .last => goToLastPage s
  | .next => goToNextPage s
  | .previous => goToPreviousPage s

/-- Run a sequence of navigation operations. -/
def runNavs (s : ViewerState) : List NavOp → ViewerState
  | [] => s
  | op :: ops => runNavs (runNav s op).1 ops

/-- `zoomIn` (source lines 238-240): `scale + 0.2`, unbounded above. -/
def zoomIn (s : ViewerState) : ViewerState :=
  { s with scale := s.scale + 1/5 }

/-- `zoomOut` (source lines 242-244): `Math.max(scale - 0.2, 0.3)`. -/
def zoomOut (s : ViewerState) : ViewerState :=
  { s with scale := max (s.scale - 1/5) (3/10) }

/-- A zoom operation. -/
inductive ZoomOp where
  | zin | zout
deriving Repr, DecidableEq

/-- Run a sequence of zoom operations. -/
def runZooms (s : ViewerState) : List ZoomOp → ViewerState
  | [] => s
  | ZoomOp.zin :: ops => runZooms (zoomIn s) ops
  | ZoomOp.zout :: ops => runZooms (zoomOut s) ops

/-- A concrete catalog record, used in concrete scenarios. -/
def docA : DocumentType :=
  ⟨"1", "Alpha.pdf", 1000, 3, "2024-01-01", "Alice", "report", "first doc", 0, "alpha.pdf"⟩

/-- A second concrete catalog record, distinct from `docA`. -/
def docB : DocumentType :=
  ⟨"2", "Beta.pdf", 2000, 5, "2024-01-02", "Bob", "manual", "second doc", 0, "beta.pdf"⟩

end PdfViewer

namespace PdfViewer

/-- Every haystack contains the empty needle (JS `s.includes("")` is `true`). -/
theorem containsChars_nil (l : List Char) : containsChars [] l = true := by
  cases l <;> simp [containsChars, startsWithChars]

/-- JS `hay.includes("")` is `true` for every haystack. -/
theorem jsIncludes_nil (s : String) : jsIncludes s "" = true := by
  have h : ("" : String).data = [] := rfl
  simp [jsIncludes, h, containsChars_nil]

/-- Lowercasing the empty string gives the empty string. -/
theorem jsToLower_nil : jsToLower "" = "" := rfl

/-- The source's filter predicate coincides with the spec's wording of it:
the spec's extra "searchText is empty" disjunct is subsumed by the substring
test, since the empty string is a substring of everything. -/
theorem docMatches_eq_specMatches (q c : String) (d : DocumentType) :
    docMatches q c d = specMatches q c d := by
  by_cases hq : q = ""
  · subst hq
    simp [docMatches, specMatches, jsToLower_nil, jsIncludes_nil]
  · have hb : (q == "") = false := by simp [hq]
    simp [docMatches, specMatches, hb]

/-- Live-handle count composes over trace concatenation. -/
theorem endLive_append (a : Int) (t1 t2 : List Ev) :
    endLive a (t1 ++ t2) = endLive (endLive a t1) t2 := by
  induction t1 generalizing a with
  | nil => rfl
  | cons e t ih => cases e <;> simp [endLive, ih]

/-- Balancedness decomposes over trace concatenation. -/
theorem balancedFrom_append (a : Int) (t1 t2 : List Ev) :
    balancedFrom a (t1 ++ t2) ↔ balancedFrom a t1 ∧ balancedFrom (endLive a t1) t2 := by
  induction t1 generalizing a with
  | nil => simp [balancedFrom, endLive]
  | cons e t ih =>
    have h10 : (1 : Int) - 1 = 0 := by norm_num
    have h01 : (0 : Int) + 1 = 1 := by norm_num
    cases e with
    | release h =>
      constructor
      · intro hx
        obtain ⟨ha, hb⟩ := hx
        subst ha
        obtain ⟨hb1, hb2⟩ := (ih 0).mp hb
        refine ⟨⟨rfl, hb1⟩, ?_⟩
        show balancedFrom (endLive (1 - 1) t) t2
        rw [h10]
        exact hb2
      · intro hx
        obtain ⟨⟨ha, hb1⟩, hb2⟩ := hx
        subst ha
        refine ⟨rfl, (ih 0).mpr ⟨hb1, ?_⟩⟩
        have hb2' : balancedFrom (endLive (1 - 1) t) t2 := hb2
        rw [h10] at hb2'
        exact hb2'
    | fetch =>
      exact ih a
    | create h =>
      constructor
      · intro hx
        obtain ⟨ha, hb⟩ := hx
        subst ha
        obtain ⟨hb1, hb2⟩ := (ih 1).mp hb
        refine ⟨⟨rfl, hb1⟩, ?_⟩
        show balancedFrom (endLive (0 + 1) t) t2
        rw [h01]
        exact hb2
      · intro hx
        obtain ⟨⟨ha, hb1⟩, hb2⟩ := hx
        subst ha
        refine ⟨rfl, (ih 1).mpr ⟨hb1, ?_⟩⟩
        have hb2' : balancedFrom (endLive (0 + 1) t) t2 := hb2
        rw [h01] at hb2'
        exact hb2'

/-- Each sequential operation produces a balanced event trace and leaves
the live-handle count equal to what the resulting state records. -/
theorem runOp_balanced (s : ViewerState) (op : Op) :
    balancedFrom (liveOf s) (runOp s op).2
    ∧ endLive (liveOf s) (runOp s op).2 = liveOf (runOp s op).1 := by
  cases op with
  | select doc r nh =>
    cases hp : s.pdfUrl with
    | none =>
      cases r with
      | netError msg =>
        simp [runOp, fetchPdf, fetchStart, fetchComplete, balancedFrom, endLive, liveOf, hp]
      | http status ct =>
        cases hr : respOk status <;> cases hc : contentTypeOk ct <;>
          simp [runOp, fetchPdf, fetchStart, fetchComplete, balancedFrom, endLive, liveOf, hp, hr, hc]
    | some h =>
      cases r with
      | netError msg =>
        simp [runOp, fetchPdf, fetchStart, fetchComplete, balancedFrom, endLive, liveOf, hp]
      | http status ct =>
        cases hr : respOk status <;> cases hc : contentTypeOk ct <;>
          simp [runOp, fetchPdf, fetchStart, fetchComplete, balancedFrom, endLive, liveOf, hp, hr, hc]
  | teardown =>
    cases hp : s.pdfUrl <;>
      simp [runOp, teardown, balancedFrom, endLive, liveOf, hp]

/-- A sequential run from any state produces a balanced trace whose final
live count matches the final state. -/
theorem runOps_balanced (s : ViewerState) (ops : List Op) :
    balancedFrom (liveOf s) (runOps s ops).2
    ∧ endLive (liveOf s) (runOps s ops).2 = liveOf (runOps s ops).1 := by
  induction ops generalizing s with
  | nil => simp [runOps, balancedFrom, endLive]
  | cons op ops ih =>
    obtain ⟨h1, h2⟩ := runOp_balanced s op
    obtain ⟨h3, h4⟩ := ih (runOp s op).1
    constructor
    · show balancedFrom (liveOf s) ((runOp s op).2 ++ (runOps (runOp s op).1 ops).2)
      rw [balancedFrom_append]
      exact ⟨h1, h2 ▸ h3⟩
    · show endLive (liveOf s) ((runOp s op).2 ++ (runOps (runOp s op).1 ops).2)
          = liveOf (runOps (runOp s op).1 ops).1
      rw [endLive_append, h2]
      exact h4

/-- A balanced trace started with at most one live handle keeps, on every
prefix, the creation count within one of the release count. -/
theorem balanced_counts (t : List Ev) :
    ∀ a, balancedFrom a t → 0 ≤ a → a ≤ 1 →
      ∀ n, (countCreates (t.take n) : Int) + a ≤ countReleases (t.take n) + 1
        ∧ (countReleases (t.take n) : Int) ≤ countCreates (t.take n) + a := by
  induction t with
  | nil =>
    intro a _ h0 h1 n
    simp [countCreates, countReleases]
    omega
  | cons e t ih =>
    intro a hb h0 h1 n
    cases n with
    | zero => simp [countCreates, countReleases]; omega
    | succ m =>
      cases e with
      | release h =>
        obtain ⟨ha, hbt⟩ := hb
        have := ih 0 hbt (le_refl 0) (by norm_num) m
        simp only [List.take_succ_cons, countCreates, countReleases] at *
        omega
      | fetch =>
        have hbt : balancedFrom a t := hb
        have := ih a hbt h0 h1 m
        simp only [List.take_succ_cons, countCreates, countReleases] at *
        omega
      | create h =>
        obtain ⟨ha, hbt⟩ := hb
        have := ih 1 hbt (by norm_num) (le_refl 1) m
        simp only [List.take_succ_cons, countCreates, countReleases] at *
        omega

/-- C1: over every sequence of document selections (`fetchPdf` calls, each
response processed before the next operation) and teardowns from the
initial state, at most one object-URL handle is live at any time: on every
prefix of the event trace, release-count ≤ creation-count ≤
release-count + 1 — regardless of how many fetches fail; moreover within a
single `fetchPdf` call the old handle's release (when one is live) comes
strictly before the fetch is issued, which itself precedes any creation. -/
theorem c1_handles (ops : List Op) (n : Nat) (s : ViewerState)
    (doc : DocumentType) (r : FetchResult) (nh : Nat) :
    countCreates (((runOps initialState ops).2).take n)
        ≤ countReleases (((runOps initialState ops).2).take n) + 1
    ∧ countReleases (((runOps initialState ops).2).take n)
        ≤ countCreates (((runOps initialState ops).2).take n)
    ∧ (fetchPdf s doc r nh).2
        = (match s.pdfUrl with | some oh => [Ev.release oh] | none => [])
          ++ Ev.fetch :: (fetchComplete (fetchStart s).1 doc r nh).2 := by
  have hb := (runOps_balanced initialState ops).1
  have h0 : liveOf initialState = 0 := rfl
  rw [h0] at hb
  have hc := balanced_counts ((runOps initialState ops).2) 0 hb (le_refl 0) (by norm_num) n
  refine ⟨by omega, by omega, ?_⟩
  cases hp : s.pdfUrl <;> simp [fetchPdf, fetchStart, hp]

/-- C2 counterexample: select A, then B while A is outstanding; B's
response is applied first, then A's stale response arrives — and it DOES
mutate the state: the final `selectedDocument` is A (not B) and A's
completion creates a fresh handle.  The source has no stale-response
guard. -/
theorem c2_cex :
    (fetchComplete
        (fetchComplete
          (fetchStart (fetchStart initialState).1).1
          docB (FetchResult.http 200 (some "application/pdf")) 1).1
        docA (FetchResult.http 200 (some "application/pdf")) 2).1.selectedDocument = some docA
    ∧ (fetchComplete
        (fetchComplete
          (fetchStart (fetchStart initialState).1).1
          docB (FetchResult.http 200 (some "application/pdf")) 1).1
        docA (FetchResult.http 200 (some "application/pdf")) 2).2 = [Ev.create 2]
    ∧ (fetchComplete
        (fetchComplete
          (fetchStart (fetchStart initialState).1).1
          docB (FetchResult.http 200 (some "application/pdf")) 1).1
        docA (FetchResult.http 200 (some "application/pdf")) 2).1.pdfUrl = some 2
    ∧ (fetchComplete
          (fetchStart (fetchStart initialState).1).1
          docB (FetchResult.http 200 (some "application/pdf")) 1).1.selectedDocument = some docB
    ∧ docA ≠ docB := by
  decide

/-- C2 (amended): the completion phase of `fetchPdf` performs no
staleness check: a successful response for document `doc` unconditionally
overwrites the state — `selectedDocument := doc`, a fresh handle installed —
regardless of which document is currently selected.  A stale response for A
arriving after B's therefore clobbers B's state. -/
theorem c2_amended (s : ViewerState) (doc : DocumentType) (nh status : Nat)
    (ct : Option String) (hok : respOk status = true) (hct : contentTypeOk ct = true) :
    (fetchComplete s doc (FetchResult.http status ct) nh).1.selectedDocument = some doc
    ∧ (fetchComplete s doc (FetchResult.http status ct) nh).1.pdfUrl = some nh
    ∧ (fetchComplete s doc (FetchResult.http status ct) nh).2 = [Ev.create nh] := by
  simp [fetchComplete, hok, hct]

/-- Witness for C2's amended theorem: a late successful response for
`docA` overwrites a state currently displaying `docB`. -/
theorem c2_amended_witness :
    (respOk 200 = true ∧ contentTypeOk (some "application/pdf") = true)
    ∧ ((fetchComplete { selectedDocument := some docB, pdfUrl := some 1 }
          docA (FetchResult.http 200 (some "application/pdf")) 2).1.selectedDocument = some docA
    ∧ (fetchComplete { selectedDocument := some docB, pdfUrl := some 1 }
          docA (FetchResult.http 200 (some "application/pdf")) 2).1.pdfUrl = some 2
    ∧ (fetchComplete { selectedDocument := some docB, pdfUrl := some 1 }
          docA (FetchResult.http 200 (some "application/pdf")) 2).2 = [Ev.create 2]) :=
  ⟨by decide, c2_amended { selectedDocument := some docB, pdfUrl := some 1 }
      docA 2 200 (some "application/pdf") (by decide) (by decide)⟩

/-- C3 counterexample: an HTTP-200 response declaring
`Content-Type: application/pdf; charset=utf-8` — which is not equal to the
exact media type `application/pdf` — is nevertheless accepted: a handle is
created and no error is set, because the source tests
`contentType?.includes('application/pdf')`, a substring check. -/
theorem c3_cex :
    (fetchComplete initialState docA
        (FetchResult.http 200 (some "application/pdf; charset=utf-8")) 1).1.pdfUrl = some 1
    ∧ (fetchComplete initialState docA
        (FetchResult.http 200 (some "application/pdf; charset=utf-8")) 1).2 = [Ev.create 1]
    ∧ (fetchComplete initialState docA
        (FetchResult.http 200 (some "application/pdf; charset=utf-8")) 1).1.error = none
    ∧ ("application/pdf; charset=utf-8" : String) ≠ "application/pdf" := by
  decide

/-- C3 (amended): for a successful HTTP status, the response is accepted
(handle created) if and only if the declared `Content-Type` is present and
contains `application/pdf` as a substring; otherwise — in particular for
`text/html`, even with status 200 — no handle is created and the state is
Errored with the "not a valid PDF" message. -/
theorem c3_amended (s : ViewerState) (doc : DocumentType) (ct : Option String)
    (status nh : Nat) (hok : respOk status = true) :
    ((fetchComplete s doc (FetchResult.http status ct) nh).2
        = if contentTypeOk ct then [Ev.create nh] else [])
    ∧ ((fetchComplete s doc (FetchResult.http status ct) nh).1.pdfUrl
        = if contentTypeOk ct then some nh else s.pdfUrl)
    ∧ (contentTypeOk ct = false →
        (fetchComplete s doc (FetchResult.http status ct) nh).1.error
          = some "Failed to load PDF: Server response is not a valid PDF file")
    ∧ contentTypeOk (some "text/html") = false
    ∧ contentTypeOk (some "application/pdf") = true
    ∧ ((fetchComplete s doc (FetchResult.http status (some "text/html")) nh).1.error
        = some "Failed to load PDF: Server response is not a valid PDF file") := by
  have hh : contentTypeOk (some "text/html") = false := by decide
  have hp : contentTypeOk (some "application/pdf") = true := by decide
  cases hc : contentTypeOk ct <;>
    simp [fetchComplete, hok, hc, hh, hp]

/-- Witness for C3's amended theorem: a `text/html` response at status 200
is rejected with the error message and no handle. -/
theorem c3_amended_witness :
    respOk 200 = true
    ∧ (((fetchComplete initialState docA (FetchResult.http 200 (some "text/html")) 4).2
        = if contentTypeOk (some "text/html") then [Ev.create 4] else [])
    ∧ ((fetchComplete initialState docA (FetchResult.http 200 (some "text/html")) 4).1.pdfUrl
        = if contentTypeOk (some "text/html") then some 4 else initialState.pdfUrl)
    ∧ (contentTypeOk (some "text/html") = false →
        (fetchComplete initialState docA (FetchResult.http 200 (some "text/html")) 4).1.error
          = some "Failed to load PDF: Server response is not a valid PDF file")
    ∧ contentTypeOk (some "text/html") = false
    ∧ contentTypeOk (some "application/pdf") = true
    ∧ ((fetchComplete initialState docA (FetchResult.http 200 (some "text/html")) 4).1.error
        = some "Failed to load PDF: Server response is not a valid PDF file")) :=
  ⟨by decide, c3_amended initialState docA (some "text/html") 200 4 (by decide)⟩

/-- C4 counterexample: from a state on page 3 of a 5-page document,
`fetchPdf` enters the Fetching state leaving `pageNumber = 3` and
`numPages = some 5`; even a full failed call never resets them — the claim's
"sets currentPage = 1, pageCount = none" does not happen on the transition
into Fetching. -/
theorem c4_cex :
    ((fetchStart { selectedDocument := some docA, numPages := some 5, pageNumber := 3 }).1.pageNumber = 3
    ∧ (fetchStart { selectedDocument := some docA, numPages := some 5, pageNumber := 3 }).1.numPages = some 5)
    ∧ (fetchPdf { selectedDocument := some docA, numPages := some 5, pageNumber := 3 }
        docB (FetchResult.http 404 none) 7).1.pageNumber = 3
    ∧ (fetchPdf { selectedDocument := some docA, numPages := some 5, pageNumber := 3 }
        docB (FetchResult.http 404 none) 7).1.numPages = some 5 := by
  decide

/-- C4 (amended): on the transition into Fetching, `fetchPdf` clears
`error` and sets `loading`, but leaves `pageNumber` and `numPages`
untouched; `pageNumber` is reset to 1 only by a successful completion, and
`numPages` is never modified by `fetchPdf` at all (it changes only when the
rendering layer reports a page count). -/
theorem c4_amended (s : ViewerState) (doc : DocumentType) (r : FetchResult) (nh : Nat) :
    (fetchStart s).1.error = none
    ∧ (fetchStart s).1.loading = true
    ∧ (fetchStart s).1.pageNumber = s.pageNumber
    ∧ (fetchStart s).1.numPages = s.numPages
    ∧ (fetchPdf s doc r nh).1.numPages = s.numPages
    ∧ (fetchPdf s doc r nh).1.pageNumber = (if fetchSuccess r then 1 else s.pageNumber) := by
  cases hp : s.pdfUrl with
  | none =>
    cases r with
    | netError msg => simp [fetchStart, fetchPdf, fetchComplete, fetchSuccess, hp]
    | http status ct =>
      cases hr : respOk status <;> cases hc : contentTypeOk ct <;>
        simp [fetchStart, fetchPdf, fetchComplete, fetchSuccess, hp, hr, hc]
  | some h =>
    cases r with
    | netError msg => simp [fetchStart, fetchPdf, fetchComplete, fetchSuccess, hp]
    | http status ct =>
      cases hr : respOk status <;> cases hc : contentTypeOk ct <;>
        simp [fetchStart, fetchPdf, fetchComplete, fetchSuccess, hp, hr, hc]

/-- C5: `filteredDocuments` returns exactly the records matching the spec
predicate ((searchText empty OR case-insensitive substring of display name
or author) AND (category filter "all" OR equal to the record's category)),
as a subsequence of the catalog (hence preserving order; the function is
pure, so the catalog is never mutated), and with empty search and "all"
category it returns the catalog unchanged. -/
theorem c5_filter (docs : List DocumentType) (q c : String) :
    filteredDocuments docs q c = docs.filter (fun d => specMatches q c d)
    ∧ (filteredDocuments docs q c).Sublist docs
    ∧ (∀ d, d ∈ filteredDocuments docs q c ↔ d ∈ docs ∧ specMatches q c d = true)
    ∧ filteredDocuments docs "" "all" = docs := by
  have heq : filteredDocuments docs q c = docs.filter (fun d => specMatches q c d) := by
    exact List.filter_congr fun d _ => docMatches_eq_specMatches q c d
  refine ⟨heq, List.filter_sublist _, ?_, ?_⟩
  · intro d
    rw [heq, List.mem_filter]
  · rw [show filteredDocuments docs "" "all" = docs.filter (fun d => specMatches "" "all" d) from
      List.filter_congr fun d _ => docMatches_eq_specMatches "" "all" d]
    apply List.filter_eq_self.mpr
    intro d _
    simp [specMatches]

/-- With enough fuel, `unitIndexAux` computes the floor of the base-1024
logarithm: `1024 ^ i ≤ n < 1024 ^ (i + 1)`. -/
theorem unitIndexAux_pow_bounds (fuel : Nat) :
    ∀ n, 1 ≤ n → n ≤ fuel →
      1024 ^ unitIndexAux fuel n ≤ n ∧ n < 1024 ^ (unitIndexAux fuel n + 1) := by
  induction fuel with
  | zero => intro n h1 h2; omega
  | succ f ih =>
    intro n h1 h2
    by_cases hlt : n < 1024
    · simp [unitIndexAux, hlt]
      omega
    · have hn : 1024 ≤ n := by omega
      have h1' : 1 ≤ n / 1024 := (Nat.one_le_div_iff (by norm_num)).mpr hn
      have h2' : n / 1024 ≤ f := by
        have hd : n / 1024 < n := Nat.div_lt_self (by omega) (by norm_num)
        omega
      obtain ⟨hl, hr⟩ := ih (n / 1024) h1' h2'
      simp only [unitIndexAux, hlt, if_false]
      constructor
      · calc 1024 ^ (unitIndexAux f (n / 1024) + 1)
            = 1024 ^ unitIndexAux f (n / 1024) * 1024 := pow_succ 1024 _
          _ ≤ n / 1024 * 1024 := Nat.mul_le_mul_right 1024 hl
          _ ≤ n := Nat.div_mul_le_self n 1024
      · have := (Nat.div_lt_iff_lt_mul (show 0 < 1024 by norm_num)).mp hr
        calc n < 1024 ^ (unitIndexAux f (n / 1024) + 1) * 1024 := this
          _ = 1024 ^ (unitIndexAux f (n / 1024) + 1 + 1) := (pow_succ 1024 _).symm

/-- For positive `n`, `unitIndex n` is the floor of the base-1024 real
logarithm of `n`, characterised by the power sandwich. -/
theorem unitIndex_pow_bounds (n : Nat) (h1 : 1 ≤ n) :
    1024 ^ unitIndex n ≤ n ∧ n < 1024 ^ (unitIndex n + 1) :=
  unitIndexAux_pow_bounds n n h1 (le_refl n)

/-- C6 counterexample: at `bytes = 1024 ^ 4` (1 TiB) the source's
`formatFileSize` produces `"1 undefined"` — the unit index is NOT clamped to
the available labels, contradicting the claim, whose clamped formatter
would produce `"1024 GB"`. -/
theorem c6_cex :
    formatFileSize 1099511627776 = "1 undefined"
    ∧ formatFileSizeClamped 1099511627776 = "1024 GB"
    ∧ formatFileSize 1099511627776 ≠ formatFileSizeClamped 1099511627776 := by
  decide

/-- C6 (amended): `formatFileSize` returns `"0 Bytes"` for zero; for
`0 < bytes < 1024 ^ 4` it renders `round(bytes / 1024 ^ i, 2)` followed by a
space and the unit label at index `i = floor(log bytes / log 1024)`
(characterised by `1024 ^ i ≤ bytes < 1024 ^ (i + 1)`, and `i ≤ 3` so the
label exists); the index is not clamped, so beyond `1024 ^ 4` the unit is
JS's `undefined` rendering.  The claim's examples hold:
`1024 → "1 KB"`, `1536 → "1.5 KB"`, `1048576 → "1 MB"`. -/
theorem c6_format (bytes : Nat) (h0 : bytes ≠ 0) (hlt : bytes < 1024 ^ 4) :
    formatFileSize bytes
      = renderCenti (roundDiv (bytes * 100) (1024 ^ unitIndex bytes)) ++ " "
          ++ sizes.getD (unitIndex bytes) "undefined"
    ∧ unitIndex bytes ≤ 3
    ∧ 1024 ^ unitIndex bytes ≤ bytes ∧ bytes < 1024 ^ (unitIndex bytes + 1)
    ∧ formatFileSize 0 = "0 Bytes" ∧ formatFileSize 1024 = "1 KB"
    ∧ formatFileSize 1536 = "1.5 KB" ∧ formatFileSize 1048576 = "1 MB" := by
  have h1 : 1 ≤ bytes := by omega
  obtain ⟨hl, hr⟩ := unitIndex_pow_bounds bytes h1
  have hle : unitIndex bytes ≤ 3 := by
    by_contra hgt
    have h4 : 4 ≤ unitIndex bytes := by omega
    have : (1024 : Nat) ^ 4 ≤ 1024 ^ unitIndex bytes :=
      Nat.pow_le_pow_right (by norm_num) h4
    omega
  refine ⟨?_, hle, hl, hr, by decide, by decide, by decide, by decide⟩
  have hb : (bytes == 0) = false := by simp [h0]
  simp [formatFileSize, hb]

/-- Witness for C6's amended theorem at `bytes = 1536`. -/
theorem c6_format_witness :
    ((1536 : Nat) ≠ 0 ∧ (1536 : Nat) < 1024 ^ 4)
    ∧ (formatFileSize 1536
        = renderCenti (roundDiv (1536 * 100) (1024 ^ unitIndex 1536)) ++ " "
            ++ sizes.getD (unitIndex 1536) "undefined"
      ∧ unitIndex 1536 ≤ 3
      ∧ 1024 ^ unitIndex 1536 ≤ 1536 ∧ 1536 < 1024 ^ (unitIndex 1536 + 1)
      ∧ formatFileSize 0 = "0 Bytes" ∧ formatFileSize 1024 = "1 KB"
      ∧ formatFileSize 1536 = "1.5 KB" ∧ formatFileSize 1048576 = "1 MB") :=
  ⟨by decide, c6_format 1536 (by decide) (by decide)⟩

/-- One navigation step keeps `pageNumber` within `[1, numPages || 1]` and
leaves `numPages` unchanged. -/
theorem runNav_step (s : ViewerState) (op : NavOp)
    (h1 : 1 ≤ s.pageNumber) (h2 : s.pageNumber ≤ jsOr1 s.numPages) :
    1 ≤ (runNav s op).1.pageNumber
    ∧ (runNav s op).1.pageNumber ≤ jsOr1 s.numPages
    ∧ (runNav s op).1.numPages = s.numPages := by
  have hN : 1 ≤ jsOr1 s.numPages := le_trans h1 h2
  cases op with
  | first => exact ⟨le_refl 1, hN, rfl⟩
  | last => exact ⟨hN, le_refl _, rfl⟩
  | next =>
    refine ⟨le_min (by omega) hN, min_le_right _ _, rfl⟩
  | previous =>
    refine ⟨le_max_right _ _, max_le (by omega) hN, rfl⟩

/-- C7: starting from `1 ≤ currentPage ≤ (pageCount or 1)`, every sequence
of goFirst/goLast/goNext/goPrevious operations keeps `currentPage` within
`[1, pageCount or 1]`; `goToNextPage` at the last page and
`goToPreviousPage` at page 1 leave `currentPage` unchanged. -/
theorem c7_nav (s : ViewerState) (ops : List NavOp)
    (h1 : 1 ≤ s.pageNumber) (h2 : s.pageNumber ≤ jsOr1 s.numPages) :
    (1 ≤ (runNavs s ops).pageNumber
      ∧ (runNavs s ops).pageNumber ≤ jsOr1 (runNavs s ops).numPages)
    ∧ (s.pageNumber = jsOr1 s.numPages →
        (runNav s NavOp.next).1.pageNumber = s.pageNumber)
    ∧ (s.pageNumber = 1 →
        (runNav s NavOp.previous).1.pageNumber = s.pageNumber) := by
  refine ⟨?_, ?_, ?_⟩
  · induction ops generalizing s with
    | nil => exact ⟨h1, h2⟩
    | cons op ops ih =>
      obtain ⟨g1, g2, g3⟩ := runNav_step s op h1 h2
      have := ih (runNav s op).1 g1 (by rw [g3]; exact g2)
      simpa [runNavs] using this
  · intro hlast
    show min (s.pageNumber + 1) (jsOr1 s.numPages) = s.pageNumber
    rw [← hlast]
    exact min_eq_right (by omega)
  · intro hfirst
    show max (s.pageNumber - 1) 1 = s.pageNumber
    rw [hfirst]
    exact max_eq_right (by omega)

/-- Witness for C7 on a concrete 5-page state and operation sequence. -/
theorem c7_nav_witness :
    (1 ≤ ({ numPages := some 5, pageNumber := 2 } : ViewerState).pageNumber
      ∧ ({ numPages := some 5, pageNumber := 2 } : ViewerState).pageNumber
          ≤ jsOr1 ({ numPages := some 5, pageNumber := 2 } : ViewerState).numPages)
    ∧ ((1 ≤ (runNavs { numPages := some 5, pageNumber := 2 }
            [NavOp.next, NavOp.last, NavOp.previous, NavOp.first]).pageNumber
      ∧ (runNavs { numPages := some 5, pageNumber := 2 }
            [NavOp.next, NavOp.last, NavOp.previous, NavOp.first]).pageNumber
          ≤ jsOr1 (runNavs { numPages := some 5, pageNumber := 2 }
            [NavOp.next, NavOp.last, NavOp.previous, NavOp.first]).numPages)
    ∧ (({ numPages := some 5, pageNumber := 2 } : ViewerState).pageNumber
          = jsOr1 ({ numPages := some 5, pageNumber := 2 } : ViewerState).numPages →
        (runNav { numPages := some 5, pageNumber := 2 } NavOp.next).1.pageNumber
          = ({ numPages := some 5, pageNumber := 2 } : ViewerState).pageNumber)
    ∧ (({ numPages := some 5, pageNumber := 2 } : ViewerState).pageNumber = 1 →
        (runNav { numPages := some 5, pageNumber := 2 } NavOp.previous).1.pageNumber
          = ({ numPages := some 5, pageNumber := 2 } : ViewerState).pageNumber)) :=
  ⟨by decide, c7_nav { numPages := some 5, pageNumber := 2 }
      [NavOp.next, NavOp.last, NavOp.previous, NavOp.first] (by decide) (by decide)⟩

/-- C8: from any `zoomFactor ≥ 0.3`, no sequence of zoomIn/zoomOut
operations drops `zoomFactor` below `0.3`; `zoomIn` adds `0.2` with no upper
bound and `zoomOut` computes `max(zoomFactor - 0.2, 0.3)`. -/
theorem c8_zoom (s : ViewerState) (ops : List ZoomOp) (h : 3/10 ≤ s.scale) :
    3/10 ≤ (runZooms s ops).scale
    ∧ (zoomIn s).scale = s.scale + 1/5
    ∧ (zoomOut s).scale = max (s.scale - 1/5) (3/10) := by
  refine ⟨?_, rfl, rfl⟩
  induction ops generalizing s with
  | nil => exact h
  | cons op ops ih =>
    cases op with
    | zin =>
      have hin : (3 : ℚ)/10 ≤ (zoomIn s).scale := by
        show (3 : ℚ)/10 ≤ s.scale + 1/5
        linarith
      exact ih (zoomIn s) hin
    | zout =>
      have hout : (3 : ℚ)/10 ≤ (zoomOut s).scale := le_max_right _ _
      exact ih (zoomOut s) hout

/-- Witness for C8 starting from factor `0.5` with three zoom-outs. -/
theorem c8_zoom_witness :
    ((3 : ℚ)/10 ≤ ({ scale := 1/2 } : ViewerState).scale)
    ∧ (3/10 ≤ (runZooms { scale := 1/2 } [ZoomOp.zout, ZoomOp.zout, ZoomOp.zout]).scale
      ∧ (zoomIn { scale := 1/2 }).scale = ({ scale := 1/2 } : ViewerState).scale + 1/5
      ∧ (zoomOut { scale := 1/2 }).scale
          = max (({ scale := 1/2 } : ViewerState).scale - 1/5) (3/10)) :=
  ⟨by norm_num, c8_zoom { scale := 1/2 } [ZoomOp.zout, ZoomOp.zout, ZoomOp.zout] (by norm_num)⟩

/-- C9: when `fetchPdf` ends in its error branch, the handle reference is
`none` (the old handle was released during the start phase and the trace
shows no creation), while `selectedDocument`, `numPages` and `pageNumber`
keep their pre-call values, an error message is set, and the retry button's
target is the previously selected document — not the one whose fetch just
failed. -/
theorem c9_error_branch (s : ViewerState) (doc : DocumentType) (r : FetchResult)
    (nh : Nat) (hf : fetchSuccess r = false) :
    (fetchPdf s doc r nh).1.pdfUrl = none
    ∧ (fetchPdf s doc r nh).1.selectedDocument = s.selectedDocument
    ∧ (fetchPdf s doc r nh).1.numPages = s.numPages
    ∧ (fetchPdf s doc r nh).1.pageNumber = s.pageNumber
    ∧ (fetchPdf s doc r nh).2
        = (match s.pdfUrl with | some oh => [Ev.release oh] | none => []) ++ [Ev.fetch]
    ∧ (fetchPdf s doc r nh).1.error.isSome = true
    ∧ retryTarget (fetchPdf s doc r nh).1 = s.selectedDocument := by
  cases hp : s.pdfUrl with
  | none =>
    cases r with
    | netError msg => simp [fetchPdf, fetchStart, fetchComplete, retryTarget, hp]
    | http status ct =>
      have : respOk status = false ∨ contentTypeOk ct = false := by
        by_contra hcon
        push_neg at hcon
        simp [fetchSuccess, Bool.not_eq_false] at hf
        rcases hcon with ⟨h1, h2⟩
        simp [Bool.not_eq_false] at h1 h2
        exact absurd (hf h1) (by simp [h2])
      rcases this with hr | hc
      · simp [fetchPdf, fetchStart, fetchComplete, retryTarget, hp, hr]
      · cases hr : respOk status <;>
          simp [fetchPdf, fetchStart, fetchComplete, retryTarget, hp, hr, hc]
  | some h =>
    cases r with
    | netError msg => simp [fetchPdf, fetchStart, fetchComplete, retryTarget, hp]
    | http status ct =>
      have : respOk status = false ∨ contentTypeOk ct = false := by
        by_contra hcon
        push_neg at hcon
        simp [fetchSuccess, Bool.not_eq_false] at hf
        rcases hcon with ⟨h1, h2⟩
        simp [Bool.not_eq_false] at h1 h2
        exact absurd (hf h1) (by simp [h2])
      rcases this with hr | hc
      · simp [fetchPdf, fetchStart, fetchComplete, retryTarget, hp, hr]
      · cases hr : respOk status <;>
          simp [fetchPdf, fetchStart, fetchComplete, retryTarget, hp, hr, hc]

/-- Witness for C9: a failing fetch of `docB` over a state displaying
`docA` leaves `docA` selected (and as the retry target) with no live
handle. -/
theorem c9_error_branch_witness :
    fetchSuccess (FetchResult.http 500 none) = false
    ∧ ((fetchPdf { pdfUrl := some 5, selectedDocument := some docA, numPages := some 3, pageNumber := 2 }
          docB (FetchResult.http 500 none) 7).1.pdfUrl = none
    ∧ (fetchPdf { pdfUrl := some 5, selectedDocument := some docA, numPages := some 3, pageNumber := 2 }
          docB (FetchResult.http 500 none) 7).1.selectedDocument
        = ({ pdfUrl := some 5, selectedDocument := some docA, numPages := some 3, pageNumber := 2 } : ViewerState).selectedDocument
    ∧ (fetchPdf { pdfUrl := some 5, selectedDocument := some docA, numPages := some 3, pageNumber := 2 }
          docB (FetchResult.http 500 none) 7).1.numPages
        = ({ pdfUrl := some 5, selectedDocument := some docA, numPages := some 3, pageNumber := 2 } : ViewerState).numPages
    ∧ (fetchPdf { pdfUrl := some 5, selectedDocument := some docA, numPages := some 3, pageNumber := 2 }
          docB (FetchResult.http 500 none) 7).1.pageNumber
        = ({ pdfUrl := some 5, selectedDocument := some docA, numPages := some 3, pageNumber := 2 } : ViewerState).pageNumber
    ∧ (fetchPdf { pdfUrl := some 5, selectedDocument := some docA, numPages := some 3, pageNumber := 2 }
          docB (FetchResult.http 500 none) 7).2
        = (match ({ pdfUrl := some 5, selectedDocument := some docA, numPages := some 3, pageNumber := 2 } : ViewerState).pdfUrl with
            | some oh => [Ev.release oh] | none => []) ++ [Ev.fetch]
    ∧ (fetchPdf { pdfUrl := some 5, selectedDocument := some docA, numPages := some 3, pageNumber := 2 }
          docB (FetchResult.http 500 none) 7).1.error.isSome = true
    ∧ retryTarget (fetchPdf { pdfUrl := some 5, selectedDocument := some docA, numPages := some 3, pageNumber := 2 }
          docB (FetchResult.http 500 none) 7).1
        = ({ pdfUrl := some 5, selectedDocument := some docA, numPages := some 3, pageNumber := 2 } : ViewerState).selectedDocument) :=
  ⟨by decide, c9_error_branch
      { pdfUrl := some 5, selectedDocument := some docA, numPages := some 3, pageNumber := 2 }
      docB (FetchResult.http 500 none) 7 (by decide)⟩

/-- C10: each of goToNextPage, goToPreviousPage, goToFirstPage and
goToLastPage invokes `onPageChange` exactly once, with the resulting
(clamped) page; at the boundaries (goNext on the last page, goPrevious on
page 1) the callback is still invoked, with the unchanged current page. -/
theorem c10_notify (s : ViewerState) :
    (goToNextPage s).2 = [(goToNextPage s).1.pageNumber]
    ∧ (goToPreviousPage s).2 = [(goToPreviousPage s).1.pageNumber]
    ∧ (goToFirstPage s).2 = [(goToFirstPage s).1.pageNumber]
    ∧ (goToLastPage s).2 = [(goToLastPage s).1.pageNumber]
    ∧ (s.pageNumber = jsOr1 s.numPages → (goToNextPage s).2 = [s.pageNumber])
    ∧ (s.pageNumber = 1 → (goToPreviousPage s).2 = [s.pageNumber]) := by
  refine ⟨rfl, rfl, rfl, rfl, ?_, ?_⟩
  · intro hlast
    show [min (s.pageNumber + 1) (jsOr1 s.numPages)] = [s.pageNumber]
    rw [← hlast, min_eq_right (by omega)]
  · intro hfirst
    show [max (s.pageNumber - 1) 1] = [s.pageNumber]
    rw [hfirst, max_eq_right (by omega)]

/-- Witness for C10 at the last page of a concrete 5-page state. -/
theorem c10_notify_witness :
    (({ numPages := some 5, pageNumber := 5 } : ViewerState).pageNumber
        = jsOr1 ({ numPages := some 5, pageNumber := 5 } : ViewerState).numPages)
    ∧ ((goToNextPage { numPages := some 5, pageNumber := 5 }).2
        = [(goToNextPage { numPages := some 5, pageNumber := 5 }).1.pageNumber]
    ∧ (goToPreviousPage { numPages := some 5, pageNumber := 5 }).2
        = [(goToPreviousPage { numPages := some 5, pageNumber := 5 }).1.pageNumber]
    ∧ (goToFirstPage { numPages := some 5, pageNumber := 5 }).2
        = [(goToFirstPage { numPages := some 5, pageNumber := 5 }).1.pageNumber]
    ∧ (goToLastPage { numPages := some 5, pageNumber := 5 }).2
        = [(goToLastPage { numPages := some 5, pageNumber := 5 }).1.pageNumber]
    ∧ (({ numPages := some 5, pageNumber := 5 } : ViewerState).pageNumber
          = jsOr1 ({ numPages := some 5, pageNumber := 5 } : ViewerState).numPages →
        (goToNextPage { numPages := some 5, pageNumber := 5 }).2
          = [({ numPages := some 5, pageNumber := 5 } : ViewerState).pageNumber])
    ∧ (({ numPages := some 5, pageNumber := 5 } : ViewerState).pageNumber = 1 →
        (goToPreviousPage { numPages := some 5, pageNumber := 5 }).2
          = [({ numPages := some 5, pageNumber := 5 } : ViewerState).pageNumber])) :=
  ⟨by decide, c10_notify { numPages := some 5, pageNumber := 5 }⟩

end PdfViewer
